import Mathlib

/-!
# Verification of the ccg-gateway bootstrap / persistent-configuration layer

Shallow embedding of the four source files of the repository:

* `backend/app/core/config.py`    — settings resolution and path resolution
* `backend/app/core/database.py`  — engine construction, `init_db`, `close_db`
* `backend/app/services/init_service.py` — `init_default_data` (default-row seeding)
* `backend/app/main.py`           — the `lifespan` async context manager

The persistent store is modelled as three lists of typed rows (one per
SQLAlchemy entity).  A SQLAlchemy async session is modelled by its pending
adds: `select(...)` queries see committed rows plus pending adds (autoflush),
`db.add` appends a pending row, and `db.commit()` appends all pending rows to
the committed store.  `scalar_one_or_none()` returns `none` on an empty
result, the row on a singleton result, and raises (modelled as `Except.error`)
when more than one row matches; an exception escaping the `async with` session
block rolls the transaction back, so the committed store is unchanged.
-/

namespace CcgGateway

/-- Row of the `GatewaySettings` entity (fields used by this layer). -/
structure GatewaySettingsRow where
  id : Nat
  updated_at : Nat
deriving DecidableEq, Repr

/-- Row of the `TimeoutSettings` entity. -/
structure TimeoutSettingsRow where
  id : Nat
  stream_first_byte_timeout : Int
  stream_idle_timeout : Int
  non_stream_timeout : Int
  updated_at : Nat
deriving DecidableEq, Repr

/-- Row of the `CliSettings` entity. -/
structure CliSettingsRow where
  cli_type : String
  default_json_config : String
  updated_at : Nat
deriving DecidableEq, Repr

/-- The committed contents of the embedded relational store: one list of rows
per entity table. -/
structure Store where
  gateway : List GatewaySettingsRow
  timeout : List TimeoutSettingsRow
  cli : List CliSettingsRow
deriving DecidableEq, Repr

/-- The store produced by a fresh schema: three empty tables. -/
def emptyStore : Store := ⟨[], [], []⟩

/-- `Base.metadata.create_all` (`init_db` in `database.py`): materializes the
schema; it creates tables and never inserts, deletes or updates rows, so on
the row level it is the identity. -/
def init_db (s : Store) : Store := s

/-- `result.scalar_one_or_none()` on the rows returned by a `select`:
`none` for an empty result, the unique row for a singleton result, and an
exception (`MultipleResultsFound`) when several rows match. -/
def scalarOneOrNone {α : Type} : List α → Except Unit (Option α)
  | [] => .ok none
  | [a] => .ok (some a)
  | _ :: _ :: _ => .error ()

/-- The fixed CLI-type list iterated by `init_default_data`. -/
def cliTypes : List String := ["claude_code", "codex", "gemini"]

/-- The `for cli_type in [...]` loop of `init_default_data`: for each CLI type
run `select(CliSettings).where(CliSettings.cli_type == cli_type)` against the
committed rows plus the session's pending adds (autoflush), and when
`scalar_one_or_none()` finds nothing, `db.add` a fresh row with
`default_json_config="{}"`.  Returns the accumulated pending adds. -/
def seedCli (s : Store) (now : Nat) :
    List String → List CliSettingsRow → Except Unit (List CliSettingsRow)
  | [], acc => .ok acc
  | ct :: rest, acc =>
    match scalarOneOrNone ((s.cli ++ acc).filter (fun r => r.cli_type == ct)) with
    | .error e => .error e
    | .ok none =>
        seedCli s now rest
          (acc ++ [{ cli_type := ct, default_json_config := "\x7b\x7d", updated_at := now }])
    | .ok (some _) => seedCli s now rest acc

/-- The pending adds accumulated by one run of `init_default_data` before the
final `db.commit()`: a conditional insert for `GatewaySettings` id=1, one for
`TimeoutSettings` id=1 (defaults 30/60/120), and one per CLI type. -/
def seedAdds (s : Store) (now : Nat) :
    Except Unit (List GatewaySettingsRow × List TimeoutSettingsRow × List CliSettingsRow) :=
  match scalarOneOrNone (s.gateway.filter (fun r => r.id == 1)) with
  | .error e => .error e
  | .ok gwFound =>
    let gwAdds : List GatewaySettingsRow :=
      match gwFound with
      | none => [{ id := 1, updated_at := now }]
      | some _ => []
    match scalarOneOrNone (s.timeout.filter (fun r => r.id == 1)) with
    | .error e => .error e
    | .ok tmFound =>
      let tmAdds : List TimeoutSettingsRow :=
        match tmFound with
        | none => [{ id := 1, stream_first_byte_timeout := 30, stream_idle_timeout := 60,
                     non_stream_timeout := 120, updated_at := now }]
        | some _ => []
      match seedCli s now cliTypes [] with
      | .error e => .error e
      | .ok cliAdds => .ok (gwAdds, tmAdds, cliAdds)

/-- `db.commit()`: append every pending add of the session to the committed
store in one step. -/
def commitAdds (s : Store)
    (a : List GatewaySettingsRow × List TimeoutSettingsRow × List CliSettingsRow) : Store :=
  { gateway := s.gateway ++ a.1, timeout := s.timeout ++ a.2.1, cli := s.cli ++ a.2.2 }

/-- `init_default_data` (`init_service.py`): run the conditional inserts in a
single session and commit them as one unit; any exception before the commit
makes the whole run fail with no rows written. -/
def init_default_data (s : Store) (now : Nat) : Except Unit Store :=
  (seedAdds s now).map (commitAdds s)

/-- The committed store after one invocation of `init_default_data`: on
success the committed result, on failure the session rolls back and the store
is unchanged. -/
def storeAfter (s : Store) (now : Nat) : Store :=
  match init_default_data s now with
  | .ok s' => s'
  | .error _ => s

/-- Run `init_default_data` repeatedly, once per timestamp in the list,
propagating failure. -/
def seedMany : Store → List Nat → Except Unit Store
  | s, [] => .ok s
  | s, t :: ts =>
    match init_default_data s t with
    | .error e => .error e
    | .ok s' => seedMany s' ts

/-- A store in which each fixed seeding key matches exactly one row:
`GatewaySettings` id=1, `TimeoutSettings` id=1, and each CLI type. -/
def wellSeeded (s : Store) : Prop :=
  (s.gateway.filter (fun r => r.id == 1)).length = 1 ∧
  (s.timeout.filter (fun r => r.id == 1)).length = 1 ∧
  ∀ ct ∈ cliTypes, (s.cli.filter (fun r => r.cli_type == ct)).length = 1

instance (s : Store) : Decidable (wellSeeded s) := by
  unfold wellSeeded; infer_instance

/-- The full startup sequence on a fresh empty store: schema initialization
(`init_db`) followed by seeding (`init_default_data`), as sequenced by
`lifespan` in `main.py`. -/
def startup (t : Nat) : Except Unit Store := init_default_data (init_db emptyStore) t

/-! ## Settings resolution (`config.py`, class `Settings(BaseSettings)`)

`pydantic_settings.BaseSettings` resolves every declared field independently:
a process environment variable wins over the `.env` file entry, which wins
over the compiled-in default (`Config.env_file`); matching is case-sensitive
(`case_sensitive = True`) and unrecognized keys are ignored
(`extra = "ignore"`).  A value present in the winning source that fails the
field's type validation aborts resolution with a validation error.
Environment and file are modelled as partial maps from key names to raw
string values. -/

/-- Decidable equality of fallible results, so that concrete runs can be
checked by evaluation. -/
instance {ε α : Type} [DecidableEq ε] [DecidableEq α] : DecidableEq (Except ε α)
  | .error e, .error f =>
    if h : e = f then .isTrue (by rw [h]) else .isFalse (by intro hh; cases hh; exact h rfl)
  | .error _, .ok _ => .isFalse (by intro hh; cases hh)
  | .ok _, .error _ => .isFalse (by intro hh; cases hh)
  | .ok a, .ok b =>
    if h : a = b then .isTrue (by rw [h]) else .isFalse (by intro hh; cases hh; exact h rfl)

/-- The resolved `Settings` object: one typed field per declared class field. -/
structure Settings where
  PROJECT_NAME : String
  VERSION : String
  DATABASE_URL : String
  GATEWAY_PORT : Int
  GATEWAY_HOST : String
  STREAM_FIRST_BYTE_TIMEOUT : Int
  STREAM_IDLE_TIMEOUT : Int
  NON_STREAM_TIMEOUT : Int
  LOG_TO_FILE : Bool
deriving DecidableEq, Repr

/-- Lowercase one ASCII character (model of `str.lower` as pydantic applies
it to boolean raw values). -/
def lowerChar (c : Char) : Char :=
  if 'A' ≤ c ∧ c ≤ 'Z' then Char.ofNat (c.toNat + 32) else c

/-- Lowercase a raw string value. -/
def lowerString (s : String) : String := String.mk (s.data.map lowerChar)

/-- The numeric value of one decimal digit character. -/
def charDigit (c : Char) : Option Nat :=
  if c.isDigit then some (c.toNat - 48) else none

/-- Parse a non-empty all-digit character list as a natural number. -/
def parseDigits : List Char → Option Nat
  | [] => none
  | cs => cs.foldl (fun acc c => acc.bind fun n => (charDigit c).map fun d => n * 10 + d) (some 0)

/-- Pydantic's int validation of a raw string value: an optional leading
minus sign followed by at least one decimal digit; anything else is a
validation error. -/
def parseEnvInt (s : String) : Option Int :=
  match s.data with
  | '-' :: rest => (parseDigits rest).map fun n => -(n : Int)
  | cs => (parseDigits cs).map fun n => (n : Int)

/-- Resolution of one string-typed field: environment wins, then the env
file, then the compiled-in default; raw strings need no validation. -/
def resolveStrV (env file : String → Option String) (key dflt : String) : String :=
  match env key with
  | some v => v
  | none =>
    match file key with
    | some v => v
    | none => dflt

/-- Resolution of one int-typed field: the winning raw value must parse as an
integer, otherwise resolution fails with a validation error. -/
def resolveIntV (env file : String → Option String) (key : String) (dflt : Int) :
    Except Unit Int :=
  match env key with
  | some v =>
    match parseEnvInt v with
    | some n => .ok n
    | none => .error ()
  | none =>
    match file key with
    | some v =>
      match parseEnvInt v with
      | some n => .ok n
      | none => .error ()
    | none => .ok dflt

/-- Pydantic's lax boolean validation of a raw string value. -/
def parseEnvBool (s : String) : Option Bool :=
  if lowerString s ∈ ["1", "on", "t", "true", "y", "yes"] then some true
  else if lowerString s ∈ ["0", "off", "f", "false", "n", "no"] then some false
  else none

/-- Resolution of one bool-typed field. -/
def resolveBoolV (env file : String → Option String) (key : String) (dflt : Bool) :
    Except Unit Bool :=
  match env key with
  | some v =>
    match parseEnvBool v with
    | some b => .ok b
    | none => .error ()
  | none =>
    match file key with
    | some v =>
      match parseEnvBool v with
      | some b => .ok b
      | none => .error ()
    | none => .ok dflt

/-- `Settings()` construction: resolve every declared field by name with its
compiled-in default from `config.py`; any single validation failure aborts
the whole construction. -/
def resolveSettings (env file : String → Option String) : Except Unit Settings :=
  match resolveIntV env file "GATEWAY_PORT" 7788 with
  | .error e => .error e
  | .ok port =>
  match resolveIntV env file "STREAM_FIRST_BYTE_TIMEOUT" 30 with
  | .error e => .error e
  | .ok sfbt =>
  match resolveIntV env file "STREAM_IDLE_TIMEOUT" 60 with
  | .error e => .error e
  | .ok sit =>
  match resolveIntV env file "NON_STREAM_TIMEOUT" 120 with
  | .error e => .error e
  | .ok nst =>
  match resolveBoolV env file "LOG_TO_FILE" false with
  | .error e => .error e
  | .ok ltf =>
    .ok { PROJECT_NAME := resolveStrV env file "PROJECT_NAME" "CCG-Gateway"
          VERSION := resolveStrV env file "VERSION" "0.1.0"
          DATABASE_URL :=
            resolveStrV env file "DATABASE_URL" "sqlite+aiosqlite:///./data/ccg_gateway.db"
          GATEWAY_PORT := port
          GATEWAY_HOST := resolveStrV env file "GATEWAY_HOST" "127.0.0.1"
          STREAM_FIRST_BYTE_TIMEOUT := sfbt
          STREAM_IDLE_TIMEOUT := sit
          NON_STREAM_TIMEOUT := nst
          LOG_TO_FILE := ltf }

/-- The nine configuration keys declared on the `Settings` class. -/
inductive ConfigKey
  | PROJECT_NAME | VERSION | DATABASE_URL | GATEWAY_PORT | GATEWAY_HOST
  | STREAM_FIRST_BYTE_TIMEOUT | STREAM_IDLE_TIMEOUT | NON_STREAM_TIMEOUT | LOG_TO_FILE
deriving DecidableEq

/-- The exact (case-sensitive) name a key is matched by. -/
def ConfigKey.name : ConfigKey → String
  | .PROJECT_NAME => "PROJECT_NAME"
  | .VERSION => "VERSION"
  | .DATABASE_URL => "DATABASE_URL"
  | .GATEWAY_PORT => "GATEWAY_PORT"
  | .GATEWAY_HOST => "GATEWAY_HOST"
  | .STREAM_FIRST_BYTE_TIMEOUT => "STREAM_FIRST_BYTE_TIMEOUT"
  | .STREAM_IDLE_TIMEOUT => "STREAM_IDLE_TIMEOUT"
  | .NON_STREAM_TIMEOUT => "NON_STREAM_TIMEOUT"
  | .LOG_TO_FILE => "LOG_TO_FILE"

/-- The value of one field of a resolved `Settings` object, untyped. -/
inductive FieldVal
  | str (v : String)
  | int (v : Int)
  | bool (v : Bool)
deriving DecidableEq

/-- Validation of a raw string value at a key's declared field type. -/
def ConfigKey.parse : ConfigKey → String → Option FieldVal
  | .PROJECT_NAME, s => some (.str s)
  | .VERSION, s => some (.str s)
  | .DATABASE_URL, s => some (.str s)
  | .GATEWAY_PORT, s => (parseEnvInt s).map .int
  | .GATEWAY_HOST, s => some (.str s)
  | .STREAM_FIRST_BYTE_TIMEOUT, s => (parseEnvInt s).map .int
  | .STREAM_IDLE_TIMEOUT, s => (parseEnvInt s).map .int
  | .NON_STREAM_TIMEOUT, s => (parseEnvInt s).map .int
  | .LOG_TO_FILE, s => (parseEnvBool s).map .bool

/-- The compiled-in default of each key, from the `Settings` class body. -/
def ConfigKey.defaultVal : ConfigKey → FieldVal
  | .PROJECT_NAME => .str "CCG-Gateway"
  | .VERSION => .str "0.1.0"
  | .DATABASE_URL => .str "sqlite+aiosqlite:///./data/ccg_gateway.db"
  | .GATEWAY_PORT => .int 7788
  | .GATEWAY_HOST => .str "127.0.0.1"
  | .STREAM_FIRST_BYTE_TIMEOUT => .int 30
  | .STREAM_IDLE_TIMEOUT => .int 60
  | .NON_STREAM_TIMEOUT => .int 120
  | .LOG_TO_FILE => .bool false

/-- Projection of a resolved `Settings` object at a key. -/
def Settings.get (st : Settings) : ConfigKey → FieldVal
  | .PROJECT_NAME => .str st.PROJECT_NAME
  | .VERSION => .str st.VERSION
  | .DATABASE_URL => .str st.DATABASE_URL
  | .GATEWAY_PORT => .int st.GATEWAY_PORT
  | .GATEWAY_HOST => .str st.GATEWAY_HOST
  | .STREAM_FIRST_BYTE_TIMEOUT => .int st.STREAM_FIRST_BYTE_TIMEOUT
  | .STREAM_IDLE_TIMEOUT => .int st.STREAM_IDLE_TIMEOUT
  | .NON_STREAM_TIMEOUT => .int st.NON_STREAM_TIMEOUT
  | .LOG_TO_FILE => .bool st.LOG_TO_FILE

/-- The `Settings` object produced with no environment and no env file: all
compiled-in defaults. -/
def defaultSettings : Settings :=
  { PROJECT_NAME := "CCG-Gateway"
    VERSION := "0.1.0"
    DATABASE_URL := "sqlite+aiosqlite:///./data/ccg_gateway.db"
    GATEWAY_PORT := 7788
    GATEWAY_HOST := "127.0.0.1"
    STREAM_FIRST_BYTE_TIMEOUT := 30
    STREAM_IDLE_TIMEOUT := 60
    NON_STREAM_TIMEOUT := 120
    LOG_TO_FILE := false }

/-! ## Path resolution (`config.py`: `get_base_dir`, `get_data_dir`,
`get_env_file`, `DATA_DIR.mkdir(exist_ok=True)`)

A filesystem path is a list of components; `Path.parent` drops the last
component.  Mode selection reads `sys.frozen`: in bundled (PyInstaller) mode
the base is the directory of `sys.executable`; in source mode it is
`Path(__file__).resolve().parent.parent.parent` of `config.py`. -/

/-- A filesystem path, as its list of components. -/
abbrev FsPath := List String

/-- `Path.parent`: drop the last path component. -/
def parentDir (p : FsPath) : FsPath := p.dropLast

/-- `get_base_dir()`: directory of the running executable in bundled mode,
the third ancestor of `config.py` in source mode. -/
def get_base_dir (frozen : Bool) (executable configFile : FsPath) : FsPath :=
  if frozen then parentDir executable
  else parentDir (parentDir (parentDir configFile))

/-- `get_data_dir()`: `<base>/data` in both modes. -/
def get_data_dir (frozen : Bool) (executable configFile : FsPath) : FsPath :=
  get_base_dir frozen executable configFile ++ ["data"]

/-- `get_env_file()`: `<base>/.env` in bundled mode, `<parent-of-base>/.env`
in source mode. -/
def get_env_file (frozen : Bool) (executable configFile : FsPath) : FsPath :=
  if frozen then get_base_dir frozen executable configFile ++ [".env"]
  else parentDir (get_base_dir frozen executable configFile) ++ [".env"]

/-- `Path.mkdir(exist_ok=True)` over a directory set: succeeds without change
when the directory already exists, creates it when its parent exists, and
fails (`FileNotFoundError`, since `parents=False`) otherwise. -/
def mkdirExistOk (fs : List FsPath) (p : FsPath) : Except Unit (List FsPath) :=
  if p ∈ fs then .ok fs
  else if parentDir p ∈ fs then .ok (p :: fs)
  else .error ()

/-- The one filesystem side effect of loading `config.py`:
`DATA_DIR.mkdir(exist_ok=True)` at module import. -/
def configLoadFs (frozen : Bool) (executable configFile : FsPath) (fs : List FsPath) :
    Except Unit (List FsPath) :=
  mkdirExistOk fs (get_data_dir frozen executable configFile)

/-! ## Application lifecycle (`main.py`, `lifespan`)

`lifespan` runs `init_start_time()`, `await init_db()`,
`await init_default_data()`, then yields (the framework serves requests while
the generator is suspended); on shutdown the generator resumes — either
normally, or with `asyncio.CancelledError` thrown into the suspension point,
which the `except` clause swallows — and the `finally` clause awaits
`close_db()`.  An exception from `init_db` or `init_default_data` propagates
before the `try` block is entered, so serving never starts and `close_db` is
not reached.  The model abstracts each phase to its success/failure outcome
and records the trace of completed phases, the number of `close_db` calls,
whether an unhandled exception escapes `lifespan`, and the terminal state of
the §4.4 state machine. -/

/-- Outcome of one awaited startup phase. -/
inductive StepResult
  | ok | fail
deriving DecidableEq

/-- How the serving period (the suspension at `yield`) ends: normal shutdown,
a cancellation signal thrown into the suspension point, or another exception. -/
inductive ServeOutcome
  | normal | cancelled | failed
deriving DecidableEq

/-- Observable phase-completion events of one `lifespan` run, in order. -/
inductive LifeEvent
  | configResolved | startTimeInit | dbInit | seedRun | serveBegin | engineDispose
deriving DecidableEq

/-- Terminal condition of one `lifespan` run. -/
inductive LifeState
  | failedStartup | stopped
deriving DecidableEq

/-- The observable result of one `lifespan` run. -/
structure LifespanRun where
  events : List LifeEvent
  disposeCount : Nat
  unhandledError : Bool
  finalState : LifeState
deriving DecidableEq

/-- Execution of the `lifespan` async context manager of `main.py`, given the
outcome of each awaited phase. -/
def lifespan (dbRes seedRes : StepResult) (serve : ServeOutcome) : LifespanRun :=
  match dbRes with
  | .fail =>
      { events := [.startTimeInit], disposeCount := 0,
        unhandledError := true, finalState := .failedStartup }
  | .ok =>
    match seedRes with
    | .fail =>
        { events := [.startTimeInit, .dbInit], disposeCount := 0,
          unhandledError := true, finalState := .failedStartup }
    | .ok =>
      match serve with
      | .normal =>
          { events := [.startTimeInit, .dbInit, .seedRun, .serveBegin, .engineDispose],
            disposeCount := 1, unhandledError := false, finalState := .stopped }
      | .cancelled =>
          { events := [.startTimeInit, .dbInit, .seedRun, .serveBegin, .engineDispose],
            disposeCount := 1, unhandledError := false, finalState := .stopped }
      | .failed =>
          { events := [.startTimeInit, .dbInit, .seedRun, .serveBegin, .engineDispose],
            disposeCount := 1, unhandledError := true, finalState := .stopped }

/-- One full process run, starting from configuration resolution.
`main.py` begins with `from app.core.config import settings`: importing the
module runs `settings = Settings()` (and the `DATA_DIR` side effect), so a
settings validation error aborts the process before the app, the engine or
`lifespan` exist — no schema initialization, no seeding and no serving are
ever attempted.  Only after the import succeeds does the framework enter
`lifespan`, whose phases follow in order. -/
def processRun (env file : String → Option String) (dbRes seedRes : StepResult)
    (serve : ServeOutcome) : LifespanRun :=
  match resolveSettings env file with
  | .error _ =>
      { events := [], disposeCount := 0, unhandledError := true, finalState := .failedStartup }
  | .ok _ =>
      let r := lifespan dbRes seedRes serve
      { events := .configResolved :: r.events, disposeCount := r.disposeCount,
        unhandledError := r.unhandledError, finalState := r.finalState }

/-! ## Engine construction (`database.py`) -/

/-- `str(Path)` on POSIX: components joined by `/`. -/
def pathStr (p : FsPath) : String := String.intercalate "/" p

/-- The connection string the module-level `create_async_engine` call is
given: the f-string built from `DATA_DIR` alone. -/
def engineUrl (dataDir : FsPath) : String :=
  "sqlite+aiosqlite:///" ++ pathStr dataDir ++ "/ccg_gateway.db"

/-- The connection target of the engine constructed at import of
`database.py`.  The module imports only `DATA_DIR` from `app.core.config`;
the resolved `Settings` object (`cfg`) is part of the ambient configuration
of the process but is never read by the engine construction, which `engineUrl`
makes explicit. -/
def engineConnectionTarget (_cfg : Settings) (dataDir : FsPath) : String :=
  engineUrl dataDir

/-! ## Concrete inputs used to exercise theorems with hypotheses -/

/-- A concrete process environment providing exactly one known key. -/
def envWitness : String → Option String := fun k =>
  if k = "GATEWAY_PORT" then some "9999" else none

/-- A concrete env-file overlay providing exactly one known key. -/
def fileWitness : String → Option String := fun k =>
  if k = "GATEWAY_HOST" then some "0.0.0.0" else none

/-- A concrete process environment whose GATEWAY_PORT value fails int
validation, so `Settings()` raises at import. -/
def envWitnessBad : String → Option String := fun k =>
  if k = "GATEWAY_PORT" then some "not-a-number" else none

/-! ## Lemmas about the seeding pass -/

theorem scalarOneOrNone_eq_ok_none {α : Type} {l : List α} :
    scalarOneOrNone l = .ok none ↔ l = [] := by
  cases l with
  | nil => simp [scalarOneOrNone]
  | cons a t => cases t <;> simp [scalarOneOrNone]

theorem scalarOneOrNone_eq_ok_some {α : Type} {l : List α} {a : α} :
    scalarOneOrNone l = .ok (some a) ↔ l = [a] := by
  cases l with
  | nil => simp [scalarOneOrNone]
  | cons b t => cases t <;> simp [scalarOneOrNone]

/-- Every pending CLI add of a successful loop run extends the accumulator,
carries a CLI type from the processed list, and was only added because no
committed row of that type existed. -/
theorem seedCli_ok_structure (s : Store) (now : Nat) (l : List String) :
    ∀ (acc acc' : List CliSettingsRow),
      seedCli s now l acc = .ok acc' →
      ∃ ext, acc' = acc ++ ext ∧
        ∀ r ∈ ext, r.cli_type ∈ l ∧
          s.cli.filter (fun x => x.cli_type == r.cli_type) = [] := by
  induction l with
  | nil =>
    intro acc acc' h
    simp only [seedCli, Except.ok.injEq] at h
    exact ⟨[], by simp [h], by simp⟩
  | cons ct rest ih =>
    intro acc acc' h
    rw [seedCli] at h
    cases hq : scalarOneOrNone ((s.cli ++ acc).filter (fun r => r.cli_type == ct)) with
    | error e => rw [hq] at h; exact absurd h (by simp)
    | ok found =>
      rw [hq] at h
      cases found with
      | none =>
        obtain ⟨ext, hext, hprop⟩ := ih _ _ h
        have hnil : s.cli.filter (fun x => x.cli_type == ct) = [] := by
          have := scalarOneOrNone_eq_ok_none.mp hq
          rw [List.filter_append, List.append_eq_nil] at this
          exact this.1
        refine ⟨{ cli_type := ct, default_json_config := "\x7b\x7d", updated_at := now } :: ext,
          by simpa using hext, ?_⟩
        intro r hr
        rcases List.mem_cons.mp hr with rfl | hr
        · exact ⟨List.mem_cons_self _ _, hnil⟩
        · obtain ⟨h1, h2⟩ := hprop _ hr
          exact ⟨List.mem_cons_of_mem _ h1, h2⟩
      | some x =>
        obtain ⟨ext, hext, hprop⟩ := ih _ _ h
        refine ⟨ext, hext, fun r hr => ?_⟩
        obtain ⟨h1, h2⟩ := hprop _ hr
        exact ⟨List.mem_cons_of_mem _ h1, h2⟩

theorem filter_cliType_eq_nil {ext : List CliSettingsRow} {l : List String} {ct : String}
    (h : ∀ r ∈ ext, r.cli_type ∈ l) (hct : ct ∉ l) :
    ext.filter (fun r => r.cli_type == ct) = [] := by
  rw [List.filter_eq_nil_iff]
  intro r hr hbeq
  exact hct (by simpa [eq_of_beq hbeq] using h r hr)

/-- After a successful loop run over a duplicate-free type list, each
processed CLI type matches exactly one row among committed rows plus pending
adds. -/
theorem seedCli_count (s : Store) (now : Nat) (l : List String) :
    ∀ (acc acc' : List CliSettingsRow), l.Nodup →
      seedCli s now l acc = .ok acc' →
      ∀ ct ∈ l, ((s.cli ++ acc').filter (fun r => r.cli_type == ct)).length = 1 := by
  induction l with
  | nil => intro acc acc' _ _ ct hct; exact absurd hct (List.not_mem_nil ct)
  | cons ct0 rest ih =>
    intro acc acc' hnd h ct hct
    rw [seedCli] at h
    have hnd' := hnd
    rw [List.nodup_cons] at hnd'
    cases hq : scalarOneOrNone ((s.cli ++ acc).filter (fun r => r.cli_type == ct0)) with
    | error e => rw [hq] at h; exact absurd h (by simp)
    | ok found =>
      rw [hq] at h
      cases found with
      | none =>
        rcases List.mem_cons.mp hct with rfl | hct'
        · obtain ⟨ext, hext, hprop⟩ := seedCli_ok_structure s now rest _ _ h
          have hempty : (s.cli ++ acc).filter (fun r => r.cli_type == ct) = [] :=
            scalarOneOrNone_eq_ok_none.mp hq
          have hextnil : ext.filter (fun r => r.cli_type == ct) = [] :=
            filter_cliType_eq_nil (fun r hr => (hprop r hr).1) hnd'.1
          rw [hext]
          simp only [← List.append_assoc, List.filter_append, hextnil]
          rw [← List.filter_append, hempty]
          simp
        · exact ih _ _ hnd'.2 h ct hct'
      | some x =>
        rcases List.mem_cons.mp hct with rfl | hct'
        · obtain ⟨ext, hext, hprop⟩ := seedCli_ok_structure s now rest _ _ h
          have hone : (s.cli ++ acc).filter (fun r => r.cli_type == ct) = [x] :=
            scalarOneOrNone_eq_ok_some.mp hq
          have hextnil : ext.filter (fun r => r.cli_type == ct) = [] :=
            filter_cliType_eq_nil (fun r hr => (hprop r hr).1) hnd'.1
          rw [hext]
          simp only [← List.append_assoc, List.filter_append, hextnil]
          rw [← List.filter_append, hone]
          simp
        · exact ih _ _ hnd'.2 h ct hct'

theorem init_default_data_ok_iff {s : Store} {t : Nat} {s' : Store} :
    init_default_data s t = .ok s' ↔
      ∃ a, seedAdds s t = .ok a ∧ s' = commitAdds s a := by
  unfold init_default_data
  cases h : seedAdds s t with
  | error e => simp [Except.map]
  | ok a => simp [Except.map, eq_comm]

/-- Inversion of a successful `seedAdds` run into its three conditional
inserts. -/
theorem seedAdds_ok_inv {s : Store} {t : Nat}
    {a : List GatewaySettingsRow × List TimeoutSettingsRow × List CliSettingsRow}
    (h : seedAdds s t = .ok a) :
    (∃ gwFound, scalarOneOrNone (s.gateway.filter (fun r => r.id == 1)) = .ok gwFound ∧
      a.1 = (match gwFound with
             | none => [{ id := 1, updated_at := t }]
             | some _ => [])) ∧
    (∃ tmFound, scalarOneOrNone (s.timeout.filter (fun r => r.id == 1)) = .ok tmFound ∧
      a.2.1 = (match tmFound with
               | none => [{ id := 1, stream_first_byte_timeout := 30, stream_idle_timeout := 60,
                            non_stream_timeout := 120, updated_at := t }]
               | some _ => [])) ∧
    seedCli s t cliTypes [] = .ok a.2.2 := by
  rw [seedAdds] at h
  cases hgw : scalarOneOrNone (s.gateway.filter (fun r => r.id == 1)) with
  | error e => rw [hgw] at h; exact absurd h (by simp)
  | ok gwFound =>
    rw [hgw] at h
    cases htm : scalarOneOrNone (s.timeout.filter (fun r => r.id == 1)) with
    | error e => rw [htm] at h; exact absurd h (by simp)
    | ok tmFound =>
      rw [htm] at h
      cases hcli : seedCli s t cliTypes [] with
      | error e => rw [hcli] at h; exact absurd h (by simp)
      | ok cliAdds =>
        rw [hcli] at h
        simp only [Except.ok.injEq] at h
        subst h
        exact ⟨⟨gwFound, rfl, rfl⟩, ⟨tmFound, rfl, rfl⟩, rfl⟩

/-- A successful seeding run leaves each fixed key with exactly one row. -/
theorem wellSeeded_after {s : Store} {t : Nat} {s' : Store}
    (h : init_default_data s t = .ok s') : wellSeeded s' := by
  obtain ⟨a, ha, rfl⟩ := init_default_data_ok_iff.mp h
  obtain ⟨⟨gwFound, hgw, hgwa⟩, ⟨tmFound, htm, htma⟩, hcli⟩ := seedAdds_ok_inv ha
  refine ⟨?_, ?_, ?_⟩
  · cases gwFound with
    | none =>
      have : s.gateway.filter (fun r => r.id == 1) = [] := scalarOneOrNone_eq_ok_none.mp hgw
      simp [commitAdds, List.filter_append, this, hgwa]
    | some x =>
      have : s.gateway.filter (fun r => r.id == 1) = [x] := scalarOneOrNone_eq_ok_some.mp hgw
      simp [commitAdds, List.filter_append, this, hgwa]
  · cases tmFound with
    | none =>
      have : s.timeout.filter (fun r => r.id == 1) = [] := scalarOneOrNone_eq_ok_none.mp htm
      simp [commitAdds, List.filter_append, this, htma]
    | some x =>
      have : s.timeout.filter (fun r => r.id == 1) = [x] := scalarOneOrNone_eq_ok_some.mp htm
      simp [commitAdds, List.filter_append, this, htma]
  · intro ct hct
    have := seedCli_count s t cliTypes [] a.2.2 (by decide) hcli ct hct
    simpa [commitAdds] using this

/-- The CLI loop adds nothing when every CLI type already has exactly one
row. -/
theorem seedCli_fixpoint {s : Store} {t : Nat}
    (h : ∀ ct ∈ cliTypes, (s.cli.filter (fun r => r.cli_type == ct)).length = 1) :
    seedCli s t cliTypes [] = .ok [] := by
  obtain ⟨a1, h1⟩ := List.length_eq_one.mp (h "claude_code" (by decide))
  obtain ⟨a2, h2⟩ := List.length_eq_one.mp (h "codex" (by decide))
  obtain ⟨a3, h3⟩ := List.length_eq_one.mp (h "gemini" (by decide))
  rw [cliTypes]
  rw [seedCli]
  simp only [List.append_nil, h1, scalarOneOrNone]
  rw [seedCli]
  simp only [List.append_nil, h2, scalarOneOrNone]
  rw [seedCli]
  simp only [List.append_nil, h3, scalarOneOrNone]
  rw [seedCli]

/-- Seeding is the identity on any store whose fixed keys are already
uniquely populated. -/
theorem init_default_data_fixpoint {s : Store} (hs : wellSeeded s) (t : Nat) :
    init_default_data s t = .ok s := by
  obtain ⟨hgw, htm, hcli⟩ := hs
  obtain ⟨x, hx⟩ := List.length_eq_one.mp hgw
  obtain ⟨y, hy⟩ := List.length_eq_one.mp htm
  rw [init_default_data, seedAdds, hx]
  simp only [scalarOneOrNone]
  rw [hy]
  simp only [scalarOneOrNone]
  rw [seedCli_fixpoint hcli]
  simp [Except.map, commitAdds]

/-! ## Claim theorems: seeding -/

/-- C1: Seeding is idempotent.  After one successful `init_default_data` run
producing store `s'`, every further sequence of runs (at arbitrary later
timestamps) returns `s'` unchanged — so every per-entity row count equals
that of a single run — and `s'` holds exactly one row for each fixed key
(`GatewaySettings` id=1, `TimeoutSettings` id=1, each of the three CLI
types), so re-running never creates duplicates. -/
theorem init_default_data_idempotent (s : Store) (t : Nat) (s' : Store)
    (h : init_default_data s t = .ok s') :
    wellSeeded s' ∧ ∀ ts : List Nat, seedMany s' ts = .ok s' := by
  have hws := wellSeeded_after h
  refine ⟨hws, fun ts => ?_⟩
  induction ts with
  | nil => rfl
  | cons t' ts ih => rw [seedMany, init_default_data_fixpoint hws]; exact ih

/-- Witness for C1: seeding the empty store at time 0 and re-running twice
leaves the seeded store untouched. -/
theorem init_default_data_idempotent_witness :
    wellSeeded (Store.mk [⟨1, 0⟩] [⟨1, 30, 60, 120, 0⟩]
      [⟨"claude_code", "\x7b\x7d", 0⟩, ⟨"codex", "\x7b\x7d", 0⟩, ⟨"gemini", "\x7b\x7d", 0⟩]) ∧
    seedMany (Store.mk [⟨1, 0⟩] [⟨1, 30, 60, 120, 0⟩]
      [⟨"claude_code", "\x7b\x7d", 0⟩, ⟨"codex", "\x7b\x7d", 0⟩, ⟨"gemini", "\x7b\x7d", 0⟩])
      [1, 2] =
    .ok (Store.mk [⟨1, 0⟩] [⟨1, 30, 60, 120, 0⟩]
      [⟨"claude_code", "\x7b\x7d", 0⟩, ⟨"codex", "\x7b\x7d", 0⟩, ⟨"gemini", "\x7b\x7d", 0⟩]) :=
  have h := init_default_data_idempotent emptyStore 0
    (Store.mk [⟨1, 0⟩] [⟨1, 30, 60, 120, 0⟩]
      [⟨"claude_code", "\x7b\x7d", 0⟩, ⟨"codex", "\x7b\x7d", 0⟩, ⟨"gemini", "\x7b\x7d", 0⟩]) rfl
  ⟨h.1, h.2 [1, 2]⟩

/-- C2: One full startup sequence (schema init then seeding) on a fresh empty
store yields exactly one `GatewaySettings` row with id=1, exactly one
`TimeoutSettings` row with id=1 and timeouts 30/60/120, and exactly three
`CliSettings` rows for claude_code, codex and gemini, each with
`default_json_config` the empty JSON document. -/
theorem startup_fresh_store_contents (t : Nat) :
    startup t = .ok (Store.mk [⟨1, t⟩] [⟨1, 30, 60, 120, t⟩]
      [⟨"claude_code", "\x7b\x7d", t⟩, ⟨"codex", "\x7b\x7d", t⟩, ⟨"gemini", "\x7b\x7d", t⟩]) :=
  rfl

/-- C5: Seeding never overwrites.  For every successful run: every
pre-existing `CliSettings` row survives with all fields (in particular
`default_json_config`) unchanged and its CLI type gains no duplicate row;
likewise a pre-existing `GatewaySettings` or `TimeoutSettings` row with id=1
survives unchanged with no duplicate for id=1. -/
theorem init_default_data_no_overwrite (s : Store) (t : Nat) (s' : Store)
    (h : init_default_data s t = .ok s') :
    (∀ r ∈ s.cli, r ∈ s'.cli ∧
       s'.cli.filter (fun x => x.cli_type == r.cli_type) =
         s.cli.filter (fun x => x.cli_type == r.cli_type)) ∧
    (∀ g ∈ s.gateway, g.id = 1 → g ∈ s'.gateway ∧
       s'.gateway.filter (fun x => x.id == 1) = s.gateway.filter (fun x => x.id == 1)) ∧
    (∀ w ∈ s.timeout, w.id = 1 → w ∈ s'.timeout ∧
       s'.timeout.filter (fun x => x.id == 1) = s.timeout.filter (fun x => x.id == 1)) := by
  obtain ⟨a, ha, rfl⟩ := init_default_data_ok_iff.mp h
  obtain ⟨⟨gwFound, hgw, hgwa⟩, ⟨tmFound, htm, htma⟩, hcli⟩ := seedAdds_ok_inv ha
  obtain ⟨ext, hext, hprop⟩ := seedCli_ok_structure s t cliTypes _ _ hcli
  simp only [List.nil_append] at hext
  refine ⟨?_, ?_, ?_⟩
  · intro r hr
    have hfil : ext.filter (fun x => x.cli_type == r.cli_type) = [] := by
      rw [List.filter_eq_nil_iff]
      intro x hx hbeq
      have hx2 := (hprop x hx).2
      have : r ∈ s.cli.filter (fun y => y.cli_type == x.cli_type) :=
        List.mem_filter.mpr ⟨hr, by simp [eq_of_beq hbeq]⟩
      rw [hx2] at this
      exact absurd this (List.not_mem_nil r)
    constructor
    · exact List.mem_append_left _ hr
    · simp [commitAdds, hext, List.filter_append, hfil]
  · intro g hg hgid
    cases gwFound with
    | none =>
      have hnil : s.gateway.filter (fun r => r.id == 1) = [] := scalarOneOrNone_eq_ok_none.mp hgw
      have : g ∈ s.gateway.filter (fun r => r.id == 1) :=
        List.mem_filter.mpr ⟨hg, by simp [hgid]⟩
      rw [hnil] at this
      exact absurd this (List.not_mem_nil g)
    | some x =>
      have ha1 : a.1 = [] := hgwa
      exact ⟨by simp [commitAdds, hg], by simp [commitAdds, ha1]⟩
  · intro w hw hwid
    cases tmFound with
    | none =>
      have hnil : s.timeout.filter (fun r => r.id == 1) = [] := scalarOneOrNone_eq_ok_none.mp htm
      have : w ∈ s.timeout.filter (fun r => r.id == 1) :=
        List.mem_filter.mpr ⟨hw, by simp [hwid]⟩
      rw [hnil] at this
      exact absurd this (List.not_mem_nil w)
    | some x =>
      have ha2 : a.2.1 = [] := htma
      exact ⟨by simp [commitAdds, hw], by simp [commitAdds, ha2]⟩

/-- Witness for C5: a manually edited codex row (non-empty config) survives a
re-run of seeding byte-for-byte, with no duplicate codex row. -/
theorem init_default_data_no_overwrite_witness :
    (⟨"codex", "custom", 3⟩ : CliSettingsRow) ∈
      (Store.mk [⟨1, 11⟩] [⟨1, 45, 90, 150, 2⟩]
        [⟨"codex", "custom", 3⟩, ⟨"claude_code", "\x7b\x7d", 7⟩, ⟨"gemini", "\x7b\x7d", 7⟩]).cli ∧
    (Store.mk [⟨1, 11⟩] [⟨1, 45, 90, 150, 2⟩]
        [⟨"codex", "custom", 3⟩, ⟨"claude_code", "\x7b\x7d", 7⟩,
         ⟨"gemini", "\x7b\x7d", 7⟩]).cli.filter
        (fun x => x.cli_type == "codex") =
      (Store.mk [⟨1, 11⟩] [⟨1, 45, 90, 150, 2⟩] [⟨"codex", "custom", 3⟩]).cli.filter
        (fun x => x.cli_type == "codex") :=
  (init_default_data_no_overwrite
      (Store.mk [⟨1, 11⟩] [⟨1, 45, 90, 150, 2⟩] [⟨"codex", "custom", 3⟩]) 7
      (Store.mk [⟨1, 11⟩] [⟨1, 45, 90, 150, 2⟩]
        [⟨"codex", "custom", 3⟩, ⟨"claude_code", "\x7b\x7d", 7⟩, ⟨"gemini", "\x7b\x7d", 7⟩])
      rfl).1
    ⟨"codex", "custom", 3⟩ (by simp)

/-- C6: Seeding is atomic per invocation.  If any existence check fails the
run errors and the committed store is exactly the pre-run store (nothing
partial persists); if the run succeeds it commits precisely the pre-run
store extended by all of its pending inserts in one step, and every pending
insert is present in the committed result. -/
theorem init_default_data_atomic (s : Store) (t : Nat) :
    (∀ e, init_default_data s t = .error e → storeAfter s t = s) ∧
    (∀ a, seedAdds s t = .ok a →
       init_default_data s t = .ok (commitAdds s a) ∧
       storeAfter s t = commitAdds s a ∧
       (∀ g ∈ a.1, g ∈ (storeAfter s t).gateway) ∧
       (∀ w ∈ a.2.1, w ∈ (storeAfter s t).timeout) ∧
       (∀ c ∈ a.2.2, c ∈ (storeAfter s t).cli)) := by
  constructor
  · intro e h
    rw [storeAfter, h]
  · intro a ha
    have h1 : init_default_data s t = .ok (commitAdds s a) := by
      rw [init_default_data, ha]; rfl
    have h2 : storeAfter s t = commitAdds s a := by rw [storeAfter, h1]
    refine ⟨h1, h2, ?_, ?_, ?_⟩ <;> intro x hx <;>
      · rw [h2]; simp [commitAdds, hx]

/-- Witness for C6: a store with duplicate id=1 gateway rows makes the run
fail and stay unchanged; on the empty store the run commits exactly its
pending adds. -/
theorem init_default_data_atomic_witness :
    storeAfter (Store.mk [⟨1, 0⟩, ⟨1, 1⟩] [] []) 7 = Store.mk [⟨1, 0⟩, ⟨1, 1⟩] [] [] ∧
    storeAfter emptyStore 0 =
      commitAdds emptyStore
        ([⟨1, 0⟩], [⟨1, 30, 60, 120, 0⟩],
          [⟨"claude_code", "\x7b\x7d", 0⟩, ⟨"codex", "\x7b\x7d", 0⟩,
           ⟨"gemini", "\x7b\x7d", 0⟩]) :=
  ⟨(init_default_data_atomic (Store.mk [⟨1, 0⟩, ⟨1, 1⟩] [] []) 7).1 () rfl,
   ((init_default_data_atomic emptyStore 0).2
      ([⟨1, 0⟩], [⟨1, 30, 60, 120, 0⟩],
        [⟨"claude_code", "\x7b\x7d", 0⟩, ⟨"codex", "\x7b\x7d", 0⟩,
         ⟨"gemini", "\x7b\x7d", 0⟩]) rfl).2.1⟩

/-! ## Lemmas about settings resolution -/

theorem resolveStrV_spec (env file : String → Option String) (key dflt : String) :
    (∀ v, env key = some v → resolveStrV env file key dflt = v) ∧
    (env key = none → ∀ v, file key = some v → resolveStrV env file key dflt = v) ∧
    (env key = none → file key = none → resolveStrV env file key dflt = dflt) := by
  refine ⟨fun v h => ?_, fun he v h => ?_, fun he hf => ?_⟩ <;> simp [resolveStrV, *]

theorem resolveIntV_spec (env file : String → Option String) (key : String) (dflt r : Int)
    (h : resolveIntV env file key dflt = .ok r) :
    (∀ v n, env key = some v → parseEnvInt v = some n → r = n) ∧
    (env key = none → ∀ v n, file key = some v → parseEnvInt v = some n → r = n) ∧
    (env key = none → file key = none → r = dflt) := by
  refine ⟨?_, ?_, ?_⟩
  · intro v n hv hn
    simp only [resolveIntV, hv, hn] at h
    exact (Except.ok.inj h).symm
  · intro he v n hv hn
    simp only [resolveIntV, he, hv, hn] at h
    exact (Except.ok.inj h).symm
  · intro he hf
    simp only [resolveIntV, he, hf] at h
    exact (Except.ok.inj h).symm

theorem resolveBoolV_spec (env file : String → Option String) (key : String) (dflt r : Bool)
    (h : resolveBoolV env file key dflt = .ok r) :
    (∀ v b, env key = some v → parseEnvBool v = some b → r = b) ∧
    (env key = none → ∀ v b, file key = some v → parseEnvBool v = some b → r = b) ∧
    (env key = none → file key = none → r = dflt) := by
  refine ⟨?_, ?_, ?_⟩
  · intro v b hv hb
    simp only [resolveBoolV, hv, hb] at h
    exact (Except.ok.inj h).symm
  · intro he v b hv hb
    simp only [resolveBoolV, he, hv, hb] at h
    exact (Except.ok.inj h).symm
  · intro he hf
    simp only [resolveBoolV, he, hf] at h
    exact (Except.ok.inj h).symm

/-- Inversion of a successful `Settings()` construction into its nine
field-wise resolutions. -/
theorem resolveSettings_ok_inv {env file : String → Option String} {st : Settings}
    (h : resolveSettings env file = .ok st) :
    st.PROJECT_NAME = resolveStrV env file "PROJECT_NAME" "CCG-Gateway" ∧
    st.VERSION = resolveStrV env file "VERSION" "0.1.0" ∧
    st.DATABASE_URL =
      resolveStrV env file "DATABASE_URL" "sqlite+aiosqlite:///./data/ccg_gateway.db" ∧
    st.GATEWAY_HOST = resolveStrV env file "GATEWAY_HOST" "127.0.0.1" ∧
    resolveIntV env file "GATEWAY_PORT" 7788 = .ok st.GATEWAY_PORT ∧
    resolveIntV env file "STREAM_FIRST_BYTE_TIMEOUT" 30 = .ok st.STREAM_FIRST_BYTE_TIMEOUT ∧
    resolveIntV env file "STREAM_IDLE_TIMEOUT" 60 = .ok st.STREAM_IDLE_TIMEOUT ∧
    resolveIntV env file "NON_STREAM_TIMEOUT" 120 = .ok st.NON_STREAM_TIMEOUT ∧
    resolveBoolV env file "LOG_TO_FILE" false = .ok st.LOG_TO_FILE := by
  rw [resolveSettings] at h
  cases h1 : resolveIntV env file "GATEWAY_PORT" 7788 with
  | error e => rw [h1] at h; exact absurd h (by simp)
  | ok port =>
  rw [h1] at h
  cases h2 : resolveIntV env file "STREAM_FIRST_BYTE_TIMEOUT" 30 with
  | error e => rw [h2] at h; exact absurd h (by simp)
  | ok sfbt =>
  rw [h2] at h
  cases h3 : resolveIntV env file "STREAM_IDLE_TIMEOUT" 60 with
  | error e => rw [h3] at h; exact absurd h (by simp)
  | ok sit =>
  rw [h3] at h
  cases h4 : resolveIntV env file "NON_STREAM_TIMEOUT" 120 with
  | error e => rw [h4] at h; exact absurd h (by simp)
  | ok nst =>
  rw [h4] at h
  cases h5 : resolveBoolV env file "LOG_TO_FILE" false with
  | error e => rw [h5] at h; exact absurd h (by simp)
  | ok ltf =>
  rw [h5] at h
  simp only [Except.ok.injEq] at h
  subst h
  exact ⟨rfl, rfl, rfl, rfl, rfl, rfl, rfl, rfl, rfl⟩

theorem resolveStrV_congr {env2 env : String → Option String} (file : String → Option String)
    (key dflt : String) (h : env2 key = env key) :
    resolveStrV env2 file key dflt = resolveStrV env file key dflt := by
  rw [resolveStrV, resolveStrV, h]

theorem resolveIntV_congr {env2 env : String → Option String} (file : String → Option String)
    (key : String) (dflt : Int) (h : env2 key = env key) :
    resolveIntV env2 file key dflt = resolveIntV env file key dflt := by
  rw [resolveIntV, resolveIntV, h]

theorem resolveBoolV_congr {env2 env : String → Option String} (file : String → Option String)
    (key : String) (dflt : Bool) (h : env2 key = env key) :
    resolveBoolV env2 file key dflt = resolveBoolV env file key dflt := by
  rw [resolveBoolV, resolveBoolV, h]

/-! ## Claim theorem: settings precedence -/

/-- C3: Settings resolution obeys the precedence law.  For every successfully
resolved configuration: each key set in the process environment resolves to
the (validated) environment value; each key absent from the environment but
present in the env file resolves to the file value; each key absent from both
resolves to its compiled-in default (PROJECT_NAME "CCG-Gateway", VERSION
"0.1.0", DATABASE_URL "sqlite+aiosqlite:///./data/ccg_gateway.db",
GATEWAY_PORT 7788, GATEWAY_HOST "127.0.0.1", timeouts 30/60/120, LOG_TO_FILE
false, per `ConfigKey.defaultVal`).  Resolution reads the environment only at
the nine exact (case-sensitive) key names, so environments agreeing on those
names — however they differ on unknown or differently-cased keys — resolve
identically: unknown keys are ignored, never errors. -/
theorem settings_precedence_law (env file : String → Option String) (st : Settings)
    (h : resolveSettings env file = .ok st) :
    (∀ k : ConfigKey, ∀ v fv, env k.name = some v → k.parse v = some fv → st.get k = fv) ∧
    (∀ k : ConfigKey, env k.name = none →
       ∀ v fv, file k.name = some v → k.parse v = some fv → st.get k = fv) ∧
    (∀ k : ConfigKey, env k.name = none → file k.name = none → st.get k = k.defaultVal) ∧
    (∀ env2 : String → Option String,
       (∀ k : ConfigKey, env2 k.name = env k.name) → resolveSettings env2 file = .ok st) := by
  obtain ⟨hPN, hV, hDB, hGH, hGP, hSF, hSI, hNS, hLF⟩ := resolveSettings_ok_inv h
  refine ⟨?_, ?_, ?_, ?_⟩
  · intro k v fv hv hp
    cases k with
    | PROJECT_NAME =>
      simp only [ConfigKey.parse, Option.some.injEq] at hp
      subst hp
      simp [Settings.get, hPN, (resolveStrV_spec env file "PROJECT_NAME" "CCG-Gateway").1 v hv]
    | VERSION =>
      simp only [ConfigKey.parse, Option.some.injEq] at hp
      subst hp
      simp [Settings.get, hV, (resolveStrV_spec env file "VERSION" "0.1.0").1 v hv]
    | DATABASE_URL =>
      simp only [ConfigKey.parse, Option.some.injEq] at hp
      subst hp
      simp [Settings.get, hDB,
        (resolveStrV_spec env file "DATABASE_URL" "sqlite+aiosqlite:///./data/ccg_gateway.db").1
          v hv]
    | GATEWAY_HOST =>
      simp only [ConfigKey.parse, Option.some.injEq] at hp
      subst hp
      simp [Settings.get, hGH, (resolveStrV_spec env file "GATEWAY_HOST" "127.0.0.1").1 v hv]
    | GATEWAY_PORT =>
      simp only [ConfigKey.parse, Option.map_eq_some'] at hp
      obtain ⟨n, hn, rfl⟩ := hp
      have := (resolveIntV_spec env file "GATEWAY_PORT" 7788 st.GATEWAY_PORT hGP).1 v n hv hn
      simp [Settings.get, this]
    | STREAM_FIRST_BYTE_TIMEOUT =>
      simp only [ConfigKey.parse, Option.map_eq_some'] at hp
      obtain ⟨n, hn, rfl⟩ := hp
      have := (resolveIntV_spec env file "STREAM_FIRST_BYTE_TIMEOUT" 30
        st.STREAM_FIRST_BYTE_TIMEOUT hSF).1 v n hv hn
      simp [Settings.get, this]
    | STREAM_IDLE_TIMEOUT =>
      simp only [ConfigKey.parse, Option.map_eq_some'] at hp
      obtain ⟨n, hn, rfl⟩ := hp
      have := (resolveIntV_spec env file "STREAM_IDLE_TIMEOUT" 60
        st.STREAM_IDLE_TIMEOUT hSI).1 v n hv hn
      simp [Settings.get, this]
    | NON_STREAM_TIMEOUT =>
      simp only [ConfigKey.parse, Option.map_eq_some'] at hp
      obtain ⟨n, hn, rfl⟩ := hp
      have := (resolveIntV_spec env file "NON_STREAM_TIMEOUT" 120
        st.NON_STREAM_TIMEOUT hNS).1 v n hv hn
      simp [Settings.get, this]
    | LOG_TO_FILE =>
      simp only [ConfigKey.parse, Option.map_eq_some'] at hp
      obtain ⟨b, hb, rfl⟩ := hp
      have := (resolveBoolV_spec env file "LOG_TO_FILE" false st.LOG_TO_FILE hLF).1 v b hv hb
      simp [Settings.get, this]
  · intro k he v fv hv hp
    cases k with
    | PROJECT_NAME =>
      simp only [ConfigKey.parse, Option.some.injEq] at hp
      subst hp
      simp [Settings.get, hPN,
        (resolveStrV_spec env file "PROJECT_NAME" "CCG-Gateway").2.1 he v hv]
    | VERSION =>
      simp only [ConfigKey.parse, Option.some.injEq] at hp
      subst hp
      simp [Settings.get, hV, (resolveStrV_spec env file "VERSION" "0.1.0").2.1 he v hv]
    | DATABASE_URL =>
      simp only [ConfigKey.parse, Option.some.injEq] at hp
      subst hp
      simp [Settings.get, hDB,
        (resolveStrV_spec env file "DATABASE_URL"
          "sqlite+aiosqlite:///./data/ccg_gateway.db").2.1 he v hv]
    | GATEWAY_HOST =>
      simp only [ConfigKey.parse, Option.some.injEq] at hp
      subst hp
      simp [Settings.get, hGH, (resolveStrV_spec env file "GATEWAY_HOST" "127.0.0.1").2.1 he v hv]
    | GATEWAY_PORT =>
      simp only [ConfigKey.parse, Option.map_eq_some'] at hp
      obtain ⟨n, hn, rfl⟩ := hp
      have := (resolveIntV_spec env file "GATEWAY_PORT" 7788
        st.GATEWAY_PORT hGP).2.1 he v n hv hn
      simp [Settings.get, this]
    | STREAM_FIRST_BYTE_TIMEOUT =>
      simp only [ConfigKey.parse, Option.map_eq_some'] at hp
      obtain ⟨n, hn, rfl⟩ := hp
      have := (resolveIntV_spec env file "STREAM_FIRST_BYTE_TIMEOUT" 30
        st.STREAM_FIRST_BYTE_TIMEOUT hSF).2.1 he v n hv hn
      simp [Settings.get, this]
    | STREAM_IDLE_TIMEOUT =>
      simp only [ConfigKey.parse, Option.map_eq_some'] at hp
      obtain ⟨n, hn, rfl⟩ := hp
      have := (resolveIntV_spec env file "STREAM_IDLE_TIMEOUT" 60
        st.STREAM_IDLE_TIMEOUT hSI).2.1 he v n hv hn
      simp [Settings.get, this]
    | NON_STREAM_TIMEOUT =>
      simp only [ConfigKey.parse, Option.map_eq_some'] at hp
      obtain ⟨n, hn, rfl⟩ := hp
      have := (resolveIntV_spec env file "NON_STREAM_TIMEOUT" 120
        st.NON_STREAM_TIMEOUT hNS).2.1 he v n hv hn
      simp [Settings.get, this]
    | LOG_TO_FILE =>
      simp only [ConfigKey.parse, Option.map_eq_some'] at hp
      obtain ⟨b, hb, rfl⟩ := hp
      have := (resolveBoolV_spec env file "LOG_TO_FILE" false
        st.LOG_TO_FILE hLF).2.1 he v b hv hb
      simp [Settings.get, this]
  · intro k he hf
    cases k with
    | PROJECT_NAME =>
      simp [Settings.get, ConfigKey.defaultVal, hPN,
        (resolveStrV_spec env file "PROJECT_NAME" "CCG-Gateway").2.2 he hf]
    | VERSION =>
      simp [Settings.get, ConfigKey.defaultVal, hV,
        (resolveStrV_spec env file "VERSION" "0.1.0").2.2 he hf]
    | DATABASE_URL =>
      simp [Settings.get, ConfigKey.defaultVal, hDB,
        (resolveStrV_spec env file "DATABASE_URL"
          "sqlite+aiosqlite:///./data/ccg_gateway.db").2.2 he hf]
    | GATEWAY_HOST =>
      simp [Settings.get, ConfigKey.defaultVal, hGH,
        (resolveStrV_spec env file "GATEWAY_HOST" "127.0.0.1").2.2 he hf]
    | GATEWAY_PORT =>
      have := (resolveIntV_spec env file "GATEWAY_PORT" 7788 st.GATEWAY_PORT hGP).2.2 he hf
      simp [Settings.get, ConfigKey.defaultVal, this]
    | STREAM_FIRST_BYTE_TIMEOUT =>
      have := (resolveIntV_spec env file "STREAM_FIRST_BYTE_TIMEOUT" 30
        st.STREAM_FIRST_BYTE_TIMEOUT hSF).2.2 he hf
      simp [Settings.get, ConfigKey.defaultVal, this]
    | STREAM_IDLE_TIMEOUT =>
      have := (resolveIntV_spec env file "STREAM_IDLE_TIMEOUT" 60
        st.STREAM_IDLE_TIMEOUT hSI).2.2 he hf
      simp [Settings.get, ConfigKey.defaultVal, this]
    | NON_STREAM_TIMEOUT =>
      have := (resolveIntV_spec env file "NON_STREAM_TIMEOUT" 120
        st.NON_STREAM_TIMEOUT hNS).2.2 he hf
      simp [Settings.get, ConfigKey.defaultVal, this]
    | LOG_TO_FILE =>
      have := (resolveBoolV_spec env file "LOG_TO_FILE" false st.LOG_TO_FILE hLF).2.2 he hf
      simp [Settings.get, ConfigKey.defaultVal, this]
  · intro env2 hsame
    have e1 : env2 "PROJECT_NAME" = env "PROJECT_NAME" := hsame .PROJECT_NAME
    have e2 : env2 "VERSION" = env "VERSION" := hsame .VERSION
    have e3 : env2 "DATABASE_URL" = env "DATABASE_URL" := hsame .DATABASE_URL
    have e4 : env2 "GATEWAY_PORT" = env "GATEWAY_PORT" := hsame .GATEWAY_PORT
    have e5 : env2 "GATEWAY_HOST" = env "GATEWAY_HOST" := hsame .GATEWAY_HOST
    have e6 : env2 "STREAM_FIRST_BYTE_TIMEOUT" = env "STREAM_FIRST_BYTE_TIMEOUT" :=
      hsame .STREAM_FIRST_BYTE_TIMEOUT
    have e7 : env2 "STREAM_IDLE_TIMEOUT" = env "STREAM_IDLE_TIMEOUT" :=
      hsame .STREAM_IDLE_TIMEOUT
    have e8 : env2 "NON_STREAM_TIMEOUT" = env "NON_STREAM_TIMEOUT" := hsame .NON_STREAM_TIMEOUT
    have e9 : env2 "LOG_TO_FILE" = env "LOG_TO_FILE" := hsame .LOG_TO_FILE
    have heq : resolveSettings env2 file = resolveSettings env file := by
      rw [resolveSettings, resolveSettings,
        resolveIntV_congr file "GATEWAY_PORT" 7788 e4,
        resolveIntV_congr file "STREAM_FIRST_BYTE_TIMEOUT" 30 e6,
        resolveIntV_congr file "STREAM_IDLE_TIMEOUT" 60 e7,
        resolveIntV_congr file "NON_STREAM_TIMEOUT" 120 e8,
        resolveBoolV_congr file "LOG_TO_FILE" false e9,
        resolveStrV_congr file "PROJECT_NAME" "CCG-Gateway" e1,
        resolveStrV_congr file "VERSION" "0.1.0" e2,
        resolveStrV_congr file "DATABASE_URL" "sqlite+aiosqlite:///./data/ccg_gateway.db" e3,
        resolveStrV_congr file "GATEWAY_HOST" "127.0.0.1" e5]
    rw [heq, h]

/-- Witness for C3: with GATEWAY_PORT set in the environment and GATEWAY_HOST
set only in the env file, the resolved settings take the environment port,
the file host, and the compiled-in default project name. -/
theorem settings_precedence_law_witness :
    (Settings.mk "CCG-Gateway" "0.1.0" "sqlite+aiosqlite:///./data/ccg_gateway.db"
        9999 "0.0.0.0" 30 60 120 false).get .GATEWAY_PORT = .int 9999 ∧
    (Settings.mk "CCG-Gateway" "0.1.0" "sqlite+aiosqlite:///./data/ccg_gateway.db"
        9999 "0.0.0.0" 30 60 120 false).get .GATEWAY_HOST = .str "0.0.0.0" ∧
    (Settings.mk "CCG-Gateway" "0.1.0" "sqlite+aiosqlite:///./data/ccg_gateway.db"
        9999 "0.0.0.0" 30 60 120 false).get .PROJECT_NAME = .str "CCG-Gateway" :=
  have h := settings_precedence_law envWitness fileWitness
    (Settings.mk "CCG-Gateway" "0.1.0" "sqlite+aiosqlite:///./data/ccg_gateway.db"
      9999 "0.0.0.0" 30 60 120 false) (by decide)
  ⟨h.1 .GATEWAY_PORT "9999" (.int 9999) (by decide) (by decide),
   h.2.1 .GATEWAY_HOST (by decide) "0.0.0.0" (.str "0.0.0.0") (by decide) (by decide),
   h.2.2.1 .PROJECT_NAME (by decide) (by decide)⟩

/-! ## Claim theorem: path resolution -/

theorem dropLast_append_exists {α : Type} (l : List α) : ∃ r, l.dropLast ++ r = l := by
  rcases eq_or_ne l [] with rfl | h
  · exact ⟨[], rfl⟩
  · exact ⟨[l.getLast h], List.dropLast_append_getLast h⟩

/-- C4: Path resolution.  In bundled mode the base directory is the directory
containing the running executable and the env-file path is `<base>/.env`; in
source mode the base directory is a fixed ancestor of the entry module (three
levels above `config.py`) and the env-file path is `<parent-of-base>/.env`.
In both modes the data directory is `<base>/data`, and configuration load
creates it: a no-op without error when it already exists, a creation
inserting exactly that directory otherwise. -/
theorem path_resolution_modes (frozen : Bool) (exe cf : FsPath) (fs : List FsPath) :
    get_base_dir true exe cf = parentDir exe ∧
    get_env_file true exe cf = get_base_dir true exe cf ++ [".env"] ∧
    (∃ rest, get_base_dir false exe cf ++ rest = cf) ∧
    get_env_file false exe cf = parentDir (get_base_dir false exe cf) ++ [".env"] ∧
    get_data_dir frozen exe cf = get_base_dir frozen exe cf ++ ["data"] ∧
    (get_data_dir frozen exe cf ∈ fs → configLoadFs frozen exe cf fs = .ok fs) ∧
    (get_data_dir frozen exe cf ∉ fs → get_base_dir frozen exe cf ∈ fs →
       configLoadFs frozen exe cf fs = .ok (get_data_dir frozen exe cf :: fs)) := by
  refine ⟨rfl, rfl, ?_, rfl, rfl, ?_, ?_⟩
  · obtain ⟨r1, h1⟩ := dropLast_append_exists cf
    obtain ⟨r2, h2⟩ := dropLast_append_exists cf.dropLast
    obtain ⟨r3, h3⟩ := dropLast_append_exists cf.dropLast.dropLast
    refine ⟨r3 ++ r2 ++ r1, ?_⟩
    show cf.dropLast.dropLast.dropLast ++ (r3 ++ r2 ++ r1) = cf
    rw [← List.append_assoc, ← List.append_assoc, h3, h2, h1]
  · intro hmem
    simp [configLoadFs, mkdirExistOk, hmem]
  · intro hnm hb
    have hp : parentDir (get_data_dir frozen exe cf) = get_base_dir frozen exe cf := by
      simp [get_data_dir, parentDir]
    simp [configLoadFs, mkdirExistOk, hnm, hp, hb]

/-- Witness for C4: in source mode under a concrete tree, loading the
configuration with the data directory already present succeeds without
change, and the env file resolves beside the base directory's parent. -/
theorem path_resolution_modes_witness :
    configLoadFs false ["opt", "gw", "gw-bin"] ["repo", "backend", "app", "core", "config.py"]
      [["repo", "backend"], ["repo", "backend", "data"]] =
      .ok [["repo", "backend"], ["repo", "backend", "data"]] ∧
    get_env_file false ["opt", "gw", "gw-bin"] ["repo", "backend", "app", "core", "config.py"] =
      ["repo", ".env"] :=
  have h := path_resolution_modes false ["opt", "gw", "gw-bin"]
    ["repo", "backend", "app", "core", "config.py"]
    [["repo", "backend"], ["repo", "backend", "data"]]
  ⟨h.2.2.2.2.2.1 (by decide), h.2.2.2.1⟩

/-! ## Claim theorems: lifecycle -/

/-- C7: A cancellation signal delivered at the serving suspension point is
not surfaced as an unhandled failure: the run still terminates in the stopped
state with the engine disposal (`close_db`) executed exactly once — exactly
as on the normal shutdown path. -/
theorem lifespan_cancellation_graceful :
    (lifespan .ok .ok .cancelled).unhandledError = false ∧
    (lifespan .ok .ok .cancelled).finalState = .stopped ∧
    (lifespan .ok .ok .cancelled).disposeCount = 1 ∧
    (lifespan .ok .ok .normal).unhandledError = false ∧
    (lifespan .ok .ok .normal).finalState = .stopped ∧
    (lifespan .ok .ok .normal).disposeCount = 1 :=
  ⟨rfl, rfl, rfl, rfl, rfl, rfl⟩

/-- C8: The four startup phases run strictly sequentially — configuration
resolution, then schema initialization, then seeding, then serving — each
starting only after the previous one completed successfully.  If
configuration resolution fails, the trace is empty: schema initialization,
seeding and serving are never attempted.  With configuration resolved, a
schema-initialization failure stops the trace before seeding: seeding is
never attempted and serving never begins; a seeding failure stops it before
serving; and when every phase succeeds the trace is exactly configuration,
start-time, schema init, seeding, serving, disposal — in that order. -/
theorem startup_phases_sequential (env file : String → Option String)
    (d r : StepResult) (s : ServeOutcome) :
    (∀ e, resolveSettings env file = .error e →
       (processRun env file d r s).events = [] ∧
       LifeEvent.dbInit ∉ (processRun env file d r s).events ∧
       LifeEvent.seedRun ∉ (processRun env file d r s).events ∧
       LifeEvent.serveBegin ∉ (processRun env file d r s).events ∧
       (processRun env file d r s).finalState = .failedStartup) ∧
    (∀ st, resolveSettings env file = .ok st →
       (d = .fail →
          (processRun env file d r s).events = [.configResolved, .startTimeInit] ∧
          LifeEvent.seedRun ∉ (processRun env file d r s).events ∧
          LifeEvent.serveBegin ∉ (processRun env file d r s).events ∧
          (processRun env file d r s).finalState = .failedStartup) ∧
       (d = .ok → r = .fail →
          (processRun env file d r s).events = [.configResolved, .startTimeInit, .dbInit] ∧
          LifeEvent.serveBegin ∉ (processRun env file d r s).events ∧
          (processRun env file d r s).finalState = .failedStartup) ∧
       (d = .ok → r = .ok →
          (processRun env file d r s).events =
            [.configResolved, .startTimeInit, .dbInit, .seedRun, .serveBegin,
             .engineDispose])) := by
  constructor
  · intro e he
    simp only [processRun, he]
    decide
  · intro st hst
    refine ⟨?_, ?_, ?_⟩
    · intro hd
      subst hd
      cases r <;> cases s <;> simp only [processRun, hst, lifespan] <;> decide
    · intro hd hr
      subst hd
      subst hr
      cases s <;> simp only [processRun, hst, lifespan] <;> decide
    · intro hd hr
      subst hd
      subst hr
      cases s <;> simp [processRun, hst, lifespan]

/-- Witness for C8: a process environment whose GATEWAY_PORT fails validation
aborts the run with an empty trace (no schema init, no seeding); with a valid
environment and a failing schema initialization, the concrete run stops right
after configuration and start-time, never reaching seeding; and with every
phase succeeding the full ordered trace is produced. -/
theorem startup_phases_sequential_witness :
    (processRun envWitnessBad fileWitness .ok .ok .normal).events = [] ∧
    LifeEvent.dbInit ∉ (processRun envWitnessBad fileWitness .ok .ok .normal).events ∧
    (processRun envWitness fileWitness .fail .ok .normal).events =
      [.configResolved, .startTimeInit] ∧
    LifeEvent.seedRun ∉ (processRun envWitness fileWitness .fail .ok .normal).events ∧
    (processRun envWitness fileWitness .ok .ok .normal).events =
      [.configResolved, .startTimeInit, .dbInit, .seedRun, .serveBegin, .engineDispose] :=
  have hbad := (startup_phases_sequential envWitnessBad fileWitness .ok .ok .normal).1
    () (by decide)
  have hgood := (startup_phases_sequential envWitness fileWitness .fail .ok .normal).2
    (Settings.mk "CCG-Gateway" "0.1.0" "sqlite+aiosqlite:///./data/ccg_gateway.db"
      9999 "0.0.0.0" 30 60 120 false) (by decide)
  have hfull := (startup_phases_sequential envWitness fileWitness .ok .ok .normal).2
    (Settings.mk "CCG-Gateway" "0.1.0" "sqlite+aiosqlite:///./data/ccg_gateway.db"
      9999 "0.0.0.0" 30 60 120 false) (by decide)
  ⟨hbad.1, hbad.2.1, (hgood.1 rfl).1, (hgood.1 rfl).2.1, hfull.2.2 rfl rfl⟩

/-! ## Claim theorem: engine connection target -/

/-- C10: The engine's connection target does not depend on DATABASE_URL.
For two resolved configurations differing only in their DATABASE_URL field,
the constructed engine connects to the identical database file
`<data-dir>/ccg_gateway.db`, because the connection string is built from the
resolved data directory alone. -/
theorem engine_target_ignores_database_url (c1 c2 : Settings) (d : FsPath) (u : String)
    (_h : c2 = { c1 with DATABASE_URL := u }) :
    engineConnectionTarget c1 d = engineConnectionTarget c2 d ∧
    engineConnectionTarget c1 d = "sqlite+aiosqlite:///" ++ pathStr d ++ "/ccg_gateway.db" :=
  ⟨rfl, rfl⟩

/-- Witness for C10: changing DATABASE_URL on the default configuration to a
different connection string leaves the engine target unchanged. -/
theorem engine_target_ignores_database_url_witness :
    engineConnectionTarget defaultSettings ["repo", "backend", "data"] =
      engineConnectionTarget
        { defaultSettings with DATABASE_URL := "postgresql://elsewhere/other" }
        ["repo", "backend", "data"] :=
  (engine_target_ignores_database_url defaultSettings
    { defaultSettings with DATABASE_URL := "postgresql://elsewhere/other" }
    ["repo", "backend", "data"] "postgresql://elsewhere/other" rfl).1

end CcgGateway
